import Mathlib

/-!
Shallow embedding of the CodeCraftHub user-management service's
authentication core, translated from the JavaScript source:

* `src/controllers/userController.js` (the two variants in the repository):
  the JWT helpers `signAccess`/`signRefresh`, and the `login`, `refresh`,
  `updateMe`, `adminUpdate` controller actions;
* `src/middlewares/authMiddleware.js` (two variants): `getBearerToken`,
  `requireAuth`, `requireRole`;
* `src/models/userModel.js`: the user record fields;
* `src/services/userService.js`: `getByEmail`, `getById`, `updateById`;
* `src/config/env.js`: the secret/TTL configuration surface.

Modelling conventions:

* A JSON Web Token produced by `jwt.sign(payload, secret, expiresIn)` is
  modelled as a record carrying its payload, the secret it was signed with,
  and the issued-at/expiry instants (seconds).  `jwt.verify(t, secret)`
  succeeds exactly when the signature matches (`t.secret = secret`, the
  standard unforgeability abstraction for HMAC) and the token is not yet
  expired (`now < t.exp`, matching jsonwebtoken's `now >= exp` expiry test).
* The argon2 hasher is an external collaborator; `login` is parametrised by
  the boolean verifier `pwVerify : digest → plaintext → Bool`.
* The document store is a list of user records; `findByIdAndUpdate` applies
  a patch to every record with the matching id and returns the updated one.
* Strings are Lean `String`s; header parsing is done on `List Char`, with
  JavaScript's `split(' ')`, `startsWith`, `slice`, `trim` and
  `toLowerCase` re-implemented structurally so the kernel can evaluate them.
-/

namespace CodeCraftHub

/-- Roles, the closed enumeration from `userModel.js`. -/
inductive Role where
  | student
  | mentor
  | admin
deriving DecidableEq, Repr

/-- Payload of a signed token.  `signAccess` embeds `sub` plus a `role`
claim; `signRefresh` embeds `sub` plus `typ = "refresh"`.  Absent JSON
fields are `none`. -/
structure TokenClaims where
  sub : String
  role : Option Role
  typ : Option String
deriving DecidableEq, Repr

/-- A signed token: payload, signing secret (signature abstraction), and
issued-at / expiry instants in seconds. -/
structure Token where
  claims : TokenClaims
  secret : String
  iat : Nat
  exp : Nat
deriving DecidableEq, Repr

/-- Model of `jwt.sign(claims, secret, \x7b expiresIn: ttl \x7d)`. -/
def jwtSign (claims : TokenClaims) (secret : String) (now ttl : Nat) : Token :=
  { claims := claims, secret := secret, iat := now, exp := now + ttl }

/-- Model of `jwt.verify(t, secret)`: returns the payload when the
signature matches the supplied secret and the token has not expired;
otherwise it throws, modelled as `none`. -/
def jwtVerify (t : Token) (secret : String) (now : Nat) : Option TokenClaims :=
  if t.secret = secret ∧ now < t.exp then some t.claims else none

/-- Configuration surface from `env.js`: two independent secrets and two
TTLs, read once at startup. -/
structure Env where
  jwtAccessSecret : String
  jwtRefreshSecret : String
  accessTtl : Nat
  refreshTtl : Nat
deriving DecidableEq, Repr

/-- Development defaults from `env.js` (`15m` = 900 s, `7d` = 604800 s). -/
def defaultEnv : Env :=
  { jwtAccessSecret := "dev_access_secret_change_me"
    jwtRefreshSecret := "dev_refresh_secret_change_me"
    accessTtl := 900
    refreshTtl := 604800 }

/-- Model of `signAccess(sub, \x7b role \x7d)` from `userController.js`:
every call site passes the user's role as the extra claim. -/
def signAccess (e : Env) (sub : String) (role : Role) (now : Nat) : Token :=
  jwtSign { sub := sub, role := some role, typ := none } e.jwtAccessSecret now e.accessTtl

/-- Model of `signRefresh(sub)` from `userController.js`. -/
def signRefresh (e : Env) (sub : String) (now : Nat) : Token :=
  jwtSign { sub := sub, role := none, typ := some "refresh" } e.jwtRefreshSecret now e.refreshTtl

/-- The identity the middleware attaches to the request:
`req.user = \x7b sub, role \x7d`; `role` is absent when the verified payload
carried none. -/
structure ReqUser where
  sub : String
  role : Option Role
deriving DecidableEq, Repr

/-- Outcome of `requireAuth`: either control passes to the handler with an
attached identity, or the chain is short-circuited with an HTTP error. -/
inductive AuthOutcome where
  | ok (user : ReqUser)
  | err (status : Nat) (message : String)
deriving DecidableEq, Repr

/-- Model of the first variant of `requireAuth` in `authMiddleware.js`,
applied to the (already extracted) bearer token: verify against the access
secret, attach `\x7b sub, role \x7d`, and collapse every failure to
`401 Unauthorised`. -/
def requireAuth (e : Env) (tok : Option Token) (now : Nat) : AuthOutcome :=
  match tok with
  | none => .err 401 "Unauthorised"
  | some t =>
    match jwtVerify t e.jwtAccessSecret now with
    | some p => .ok { sub := p.sub, role := p.role }
    | none => .err 401 "Unauthorised"

/-- Refresh-class verification as performed by `userController.refresh`:
`jwt.verify(token, env.jwtRefreshSecret)` followed by the
`payload.typ !== 'refresh'` check. -/
def verifyRefreshClass (e : Env) (t : Token) (now : Nat) : Option TokenClaims :=
  match jwtVerify t e.jwtRefreshSecret now with
  | some p => if p.typ = some "refresh" then some p else none
  | none => none

/-- Outcome of the role guard. -/
inductive GuardOutcome where
  | next
  | err (status : Nat) (message : String)
deriving DecidableEq, Repr

/-- Model of the first variant of `requireRole(role)`: missing identity or
missing role claim gives 401, a wrong role gives 403, otherwise control
passes on. -/
def requireRole (role : Role) (user : Option ReqUser) : GuardOutcome :=
  match user with
  | none => .err 401 "Unauthorised"
  | some u =>
    match u.role with
    | none => .err 401 "Unauthorised"
    | some r => if r = role then .next else .err 403 "Forbidden"

/-- Model of the second variant `requireRole(...roles)`: a missing
identity, a missing role claim and a role outside the allow-list are all
collapsed to 403. -/
def requireRoleV2 (roles : List Role) (user : Option ReqUser) : GuardOutcome :=
  match user with
  | none => .err 403 "Forbidden"
  | some u =>
    match u.role with
    | none => .err 403 "Forbidden"
    | some r => if r ∈ roles then .next else .err 403 "Forbidden"

/-- JavaScript's `String.prototype.split(' ')` on a character list:
`"".split(' ') = [""]`, and consecutive separators produce empty parts. -/
def splitOnSpace (cs : List Char) : List (List Char) :=
  match cs with
  | [] => [[]]
  | c :: rest =>
    let r := splitOnSpace rest
    if c = ' ' then [] :: r
    else
      match r with
      | [] => [[c]]
      | w :: ws => (c :: w) :: ws

/-- Model of `getBearerToken` (first middleware variant): split the
authorization header on spaces; accept exactly two parts whose first
part matches the regular expression `^Bearer$` case-insensitively. -/
def getBearerToken (header : List Char) : Option (List Char) :=
  match splitOnSpace header with
  | [scheme, tok] =>
    if scheme.map Char.toLower = "bearer".toList then some tok else none
  | _ => none

/-- Model of the token extraction inlined in the second variant of
`requireAuth`: `hdr.startsWith('Bearer ') ? hdr.slice(7) : null`. -/
def extractTokenV2 (header : List Char) : Option (List Char) :=
  if header.take 7 = "Bearer ".toList then some (header.drop 7) else none

/-! ### User records and the document store -/

/-- User record from `userModel.js`.  A missing `passwordHash` is modelled
as the empty string (the login code tests its truthiness). -/
structure UserRec where
  id : String
  email : String
  name : String
  role : Role
  passwordHash : String
  isActive : Bool
  lastLoginAt : Option Nat
  failedLoginCount : Nat
deriving DecidableEq, Repr

/-- Model of `userService.getByEmail`: `User.findOne(\x7b email \x7d)`. -/
def getByEmail (db : List UserRec) (email : String) : Option UserRec :=
  db.find? (fun u => u.email = email)

/-- Model of `userService.getById`: `User.findById(id)`. -/
def getById (db : List UserRec) (id : String) : Option UserRec :=
  db.find? (fun u => u.id = id)

/-- A patch handed to `findByIdAndUpdate`.  Mongoose applies whatever keys
the patch carries, so the patch type can name every mutable field; the
validation layers are what keep `email`/`passwordHash` out of it. -/
structure UserPatch where
  name : Option String := none
  role : Option Role := none
  isActive : Option Bool := none
  lastLoginAt : Option Nat := none
  failedLoginCount : Option Nat := none
  email : Option String := none
  passwordHash : Option String := none
deriving DecidableEq, Repr

/-- Apply a patch to a single record: present keys overwrite, absent keys
leave the field alone. -/
def applyPatch (u : UserRec) (p : UserPatch) : UserRec :=
  { u with
    name := p.name.getD u.name
    role := p.role.getD u.role
    isActive := p.isActive.getD u.isActive
    lastLoginAt := (p.lastLoginAt.map some).getD u.lastLoginAt
    failedLoginCount := p.failedLoginCount.getD u.failedLoginCount
    email := p.email.getD u.email
    passwordHash := p.passwordHash.getD u.passwordHash }

/-- Model of `userService.updateById`:
`User.findByIdAndUpdate(id, patch, \x7b new: true \x7d)`.  Returns the
updated store and the updated document, or `none` (and the unchanged
store) when no record has the id. -/
def updateById (db : List UserRec) (id : String) (p : UserPatch) :
    List UserRec × Option UserRec :=
  match getById db id with
  | none => (db, none)
  | some _ =>
    let db2 := db.map (fun u => if u.id = id then applyPatch u p else u)
    (db2, getById db2 id)

/-! ### Login -/

/-- JavaScript's `trim()` restricted to whitespace characters. -/
def trimChars (cs : List Char) : List Char :=
  ((cs.dropWhile Char.isWhitespace).reverse.dropWhile Char.isWhitespace).reverse

/-- Model of `value.email.trim().toLowerCase()` from the login and
registration handlers. -/
def normalizeEmail (s : String) : String :=
  String.mk ((trimChars s.toList).map Char.toLower)

/-- Result of the login action. -/
inductive LoginResult where
  | ok (accessToken refreshToken : Token)
  | err (status : Nat) (message : String)
deriving DecidableEq, Repr

/-- Observable store events emitted by the login action, in program
order. -/
inductive LoginEvent where
  | bookkeepingUpdate (id : String)
  | tokensIssued
deriving DecidableEq, Repr

/-- Full outcome of a login attempt: HTTP result, resulting store, and the
event trace in program order. -/
structure LoginOutput where
  result : LoginResult
  db : List UserRec
  trace : List LoginEvent
deriving DecidableEq, Repr

/-- Model of `userController.login` (identical in both controller
variants), parametrised by the argon2 verifier `pwVerify`:
normalise the email, look the user up (password hash included), collapse
unknown email / missing hash / failed verification into one
`401 Invalid credentials`; on success reset `failedLoginCount`, stamp
`lastLoginAt`, then issue both token classes. -/
def login (pwVerify : String → String → Bool) (e : Env) (db : List UserRec)
    (emailInput password : String) (now : Nat) : LoginOutput :=
  let email := normalizeEmail emailInput
  match getByEmail db email with
  | none => { result := .err 401 "Invalid credentials", db := db, trace := [] }
  | some user =>
    if user.passwordHash = "" then
      { result := .err 401 "Invalid credentials", db := db, trace := [] }
    else if pwVerify user.passwordHash password then
      let db2 := (updateById db user.id
        { lastLoginAt := some now, failedLoginCount := some 0 }).1
      let access := signAccess e user.id user.role now
      let refreshTok := signRefresh e user.id now
      { result := .ok access refreshTok, db := db2
        trace := [.bookkeepingUpdate user.id, .tokensIssued] }
    else
      { result := .err 401 "Invalid credentials", db := db, trace := [] }

/-! ### Refresh -/

/-- Result of the refresh action. -/
inductive RefreshResult where
  | ok (accessToken : Token)
  | err (status : Nat) (message : String)
deriving DecidableEq, Repr

/-- Model of `userController.refresh`: verify the presented token against
the refresh secret, require the `typ = 'refresh'` marker, re-read the user
record, and issue a fresh access token carrying the *stored* role.  The
surrounding `catch` converts every failure — including the missing-token
400 thrown inside the `try` — into `401 Invalid token`. -/
def refresh (e : Env) (db : List UserRec) (tok : Option Token) (now : Nat) :
    RefreshResult :=
  match tok with
  | none => .err 401 "Invalid token"
  | some t =>
    match jwtVerify t e.jwtRefreshSecret now with
    | none => .err 401 "Invalid token"
    | some payload =>
      if payload.typ = some "refresh" then
        match getById db payload.sub with
        | some user => .ok (signAccess e user.id user.role now)
        | none => .err 401 "Invalid token"
      else .err 401 "Invalid token"

/-! ### Update endpoints and their Joi validation schemas -/

/-- JSON values as far as the update schemas are concerned. -/
inductive JVal where
  | jstr (s : String)
  | jbool (b : Bool)
  | jnum (n : Int)
deriving DecidableEq, Repr

/-- A request body: JSON object as key/value pairs. -/
def bodyGet (body : List (String × JVal)) (k : String) : Option JVal :=
  (body.find? (fun kv => kv.1 = k)).map (fun kv => kv.2)

/-- Joi `string().max(120)` as used for `name`. -/
def validateName (v : JVal) : Option String :=
  match v with
  | .jstr s => if s.length ≤ 120 then some s else none
  | _ => none

/-- Joi `string().valid('student', 'mentor', 'admin')` as used for
`role`. -/
def validateRole (v : JVal) : Option Role :=
  match v with
  | .jstr "student" => some Role.student
  | .jstr "mentor" => some Role.mentor
  | .jstr "admin" => some Role.admin
  | _ => none

/-- Joi `boolean()` as used for `isActive`. -/
def validateBool (v : JVal) : Option Bool :=
  match v with
  | .jbool b => some b
  | _ => none

/-- Validate an optional key: an absent key is fine (`some none`), a
present key must pass its validator. -/
def optField {α : Type} (o : Option JVal) (f : JVal → Option α) :
    Option (Option α) :=
  match o with
  | none => some none
  | some v => (f v).map some

/-- Model of `updateMeSchema` (first controller variant):
`\x7b name: string().max(120) \x7d` with `stripUnknown: true` and
`.min(1)`.  Unknown keys are silently dropped; after stripping at least
one key must remain. -/
def updateMeValidate (body : List (String × JVal)) : Option UserPatch :=
  match optField (bodyGet body "name") validateName with
  | some n => if n.isSome then some { name := n } else none
  | none => none

/-- Model of `updateMeSchema` (second controller variant): also admits
`isActive: boolean()`. -/
def updateMeValidateV2 (body : List (String × JVal)) : Option UserPatch :=
  match optField (bodyGet body "name") validateName,
        optField (bodyGet body "isActive") validateBool with
  | some n, some a =>
    if n.isSome || a.isSome then some { name := n, isActive := a } else none
  | _, _ => none

/-- Model of the `patchSchema` built inside `adminUpdate`:
`name`, `role`, `isActive`, with `stripUnknown: true` and `.min(1)`. -/
def adminUpdateValidate (body : List (String × JVal)) : Option UserPatch :=
  match optField (bodyGet body "name") validateName,
        optField (bodyGet body "role") validateRole,
        optField (bodyGet body "isActive") validateBool with
  | some n, some r, some a =>
    if n.isSome || r.isSome || a.isSome then
      some { name := n, role := r, isActive := a }
    else none
  | _, _, _ => none

/-- Result of an update action: the (possibly absent) updated document on
success, or an HTTP error. -/
inductive UpdateResult where
  | ok (user : Option UserRec)
  | err (status : Nat) (message : String)
deriving DecidableEq, Repr

/-- Model of `userController.updateMe` (first variant): check the attached
identity, validate the body (Joi message strings are abstracted to a
constant), then patch the caller's own record. -/
def updateMe (db : List UserRec) (reqUser : Option ReqUser)
    (body : List (String × JVal)) : List UserRec × UpdateResult :=
  match reqUser with
  | none => (db, .err 401 "Unauthorised")
  | some ru =>
    if ru.sub = "" then (db, .err 401 "Unauthorised")
    else
      match updateMeValidate body with
      | none => (db, .err 400 "Validation failed")
      | some p =>
        let r := updateById db ru.sub p
        (r.1, .ok r.2)

/-- Model of `userController.updateMe` (second variant): no explicit
identity check (the route runs after `requireAuth`), wider schema. -/
def updateMeV2 (db : List UserRec) (sub : String)
    (body : List (String × JVal)) : List UserRec × UpdateResult :=
  match updateMeValidateV2 body with
  | none => (db, .err 400 "Validation failed")
  | some p =>
    let r := updateById db sub p
    (r.1, .ok r.2)

/-- Model of `userController.adminUpdate` (identical in both variants):
validate, patch the target record, 404 when it does not exist. -/
def adminUpdate (db : List UserRec) (targetId : String)
    (body : List (String × JVal)) : List UserRec × UpdateResult :=
  match adminUpdateValidate body with
  | none => (db, .err 400 "Validation failed")
  | some p =>
    match updateById db targetId p with
    | (_, none) => (db, .err 404 "User not found")
    | (db2, some u) => (db2, .ok (some u))

/-- The frame relation for C10: the updated record keeps the original
`email` and `passwordHash`. -/
def preservesCreds (u v : UserRec) : Prop :=
  v.email = u.email ∧ v.passwordHash = u.passwordHash

/-! ### Concrete fixtures used by witnesses and counterexamples -/

/-- A stored user: student role, deactivated, three failed logins on
record. -/
def aliceU : UserRec :=
  { id := "id1", email := "alice@example.com", name := "Alice", role := .student
    passwordHash := "hash-pw1", isActive := false, lastLoginAt := none
    failedLoginCount := 3 }

/-- A concrete stand-in for the argon2 verifier: a digest matches exactly
the plaintext it tags. -/
def pvModel (digest plain : String) : Bool := digest = "hash-" ++ plain

/-- A refresh-class token for `aliceU` that (adversarially) also carries an
`admin` role claim, to show the refresh endpoint ignores it. -/
def bogusRefreshTok : Token :=
  { claims := { sub := "id1", role := some .admin, typ := some "refresh" }
    secret := "dev_refresh_secret_change_me", iat := 0, exp := 1000 }

/-! ### Helper lemmas -/

/-- Characterisation of successful refresh-class verification: the
signature must match the refresh secret, the token must be unexpired, and
the payload must carry the `refresh` marker. -/
theorem verifyRefreshClass_eq_some (e : Env) (t : Token) (now : Nat) (p : TokenClaims) :
    verifyRefreshClass e t now = some p ↔
      t.secret = e.jwtRefreshSecret ∧ now < t.exp ∧
      t.claims.typ = some "refresh" ∧ p = t.claims := by
  unfold verifyRefreshClass jwtVerify
  by_cases hc : t.secret = e.jwtRefreshSecret ∧ now < t.exp
  · rw [if_pos hc]
    by_cases ht : t.claims.typ = some "refresh"
    · simp [ht, hc.1, hc.2, eq_comm]
    · simp [ht]
  · rw [if_neg hc]
    simp only [Option.some.injEq]
    constructor
    · intro h; cases h
    · intro h; exact absurd ⟨h.1, h.2.1⟩ hc

/-- Verifying an issued access token against the access secret before the
TTL elapses returns exactly the embedded claims. -/
theorem jwtVerify_signAccess (e : Env) (s : String) (r : Role) (now n : Nat)
    (h : n < now + e.accessTtl) :
    jwtVerify (signAccess e s r now) e.jwtAccessSecret n =
      some { sub := s, role := some r, typ := none } := by
  unfold signAccess jwtSign jwtVerify
  rw [if_pos ⟨rfl, h⟩]

/-- Verifying an issued refresh token against the refresh secret before
the TTL elapses returns exactly the embedded claims. -/
theorem jwtVerify_signRefresh (e : Env) (s : String) (now n : Nat)
    (h : n < now + e.refreshTtl) :
    jwtVerify (signRefresh e s now) e.jwtRefreshSecret n =
      some { sub := s, role := none, typ := some "refresh" } := by
  unfold signRefresh jwtSign jwtVerify
  rw [if_pos ⟨rfl, h⟩]

/-- An issued access token never passes the refresh-class check: even when
the secrets coincide, its claims carry no `refresh` marker. -/
theorem verifyRefreshClass_signAccess (e : Env) (s : String) (r : Role) (now n : Nat) :
    verifyRefreshClass e (signAccess e s r now) n = none := by
  unfold verifyRefreshClass signAccess jwtSign jwtVerify
  by_cases hc : e.jwtAccessSecret = e.jwtRefreshSecret ∧ n < now + e.accessTtl
  · rw [if_pos hc]; rfl
  · rw [if_neg hc]

/-- With distinct secrets, an issued refresh token fails the access-secret
signature check. -/
theorem jwtVerify_signRefresh_accessSecret (e : Env) (s : String) (now n : Nat)
    (hsec : e.jwtAccessSecret ≠ e.jwtRefreshSecret) :
    jwtVerify (signRefresh e s now) e.jwtAccessSecret n = none := by
  unfold signRefresh jwtSign jwtVerify
  rw [if_neg]
  intro hand
  exact hsec hand.1.symm

/-- With distinct secrets, the identity middleware rejects an issued
refresh token with 401. -/
theorem requireAuth_signRefresh (e : Env) (s : String) (now n : Nat)
    (hsec : e.jwtAccessSecret ≠ e.jwtRefreshSecret) :
    requireAuth e (some (signRefresh e s now)) n = .err 401 "Unauthorised" := by
  simp only [requireAuth, jwtVerify_signRefresh_accessSecret e s now n hsec]

/-! ### C1 -/

/-- C1: token round-trip.  For every environment, subject and role,
verifying `signAccess(subject, role)` through the identity middleware
before the access TTL elapses succeeds and attaches exactly the input
subject and role; and verifying `signRefresh(subject)` through the
refresh-class check before the refresh TTL elapses succeeds with a claim
whose `role` field is absent. -/
theorem C1_token_round_trip (e : Env) (s : String) (r : Role) (now n1 n2 : Nat)
    (h1 : n1 < now + e.accessTtl) (h2 : n2 < now + e.refreshTtl) :
    requireAuth e (some (signAccess e s r now)) n1 =
      .ok { sub := s, role := some r } ∧
    verifyRefreshClass e (signRefresh e s now) n2 =
      some { sub := s, role := none, typ := some "refresh" } := by
  constructor
  · simp only [requireAuth, jwtVerify_signAccess e s r now n1 h1]
  · simp only [verifyRefreshClass, jwtVerify_signRefresh e s now n2 h2]
    rfl

/-- C1 witness: the round trip evaluated at a concrete subject and role. -/
theorem C1_witness :
    requireAuth defaultEnv (some (signAccess defaultEnv "u1" .student 0)) 10 =
      .ok { sub := "u1", role := some .student } ∧
    verifyRefreshClass defaultEnv (signRefresh defaultEnv "u1" 0) 10 =
      some { sub := "u1", role := none, typ := some "refresh" } :=
  C1_token_round_trip defaultEnv "u1" .student 0 10 10 (by decide) (by decide)

/-! ### C2 -/

/-- C2 counterexample: access-class verification performs no class-marker
check.  A token that carries the explicit `typ = "refresh"` marker but is
signed with the *access* secret is accepted by the identity middleware
(the access-class verifier), so it is false that "verification ... checks
the embedded class marker against the expected class" for the access
class. -/
theorem C2_counterexample :
    requireAuth defaultEnv
      (some { claims := { sub := "u1", role := none, typ := some "refresh" }
              secret := "dev_access_secret_change_me", iat := 0, exp := 900 }) 10 =
      .ok { sub := "u1", role := none } := by decide

/-- C2 amended: cross-class rejection of *issued* tokens.  Verifying an
issued access token as refresh-class fails unconditionally (its claims
carry no `refresh` marker); provided the two configured secrets differ,
verifying an issued refresh token as access-class fails (signature
mismatch) and the middleware rejects it with 401.  Refresh-class
verification checks signature, expiry and the embedded marker; the
access-class path checks only signature and expiry. -/
theorem C2_cross_class_rejection (e : Env) (s s2 : String) (r : Role)
    (now now2 n1 n2 n3 : Nat)
    (hsec : e.jwtAccessSecret ≠ e.jwtRefreshSecret) :
    verifyRefreshClass e (signAccess e s r now) n1 = none ∧
    jwtVerify (signRefresh e s2 now2) e.jwtAccessSecret n2 = none ∧
    requireAuth e (some (signRefresh e s2 now2)) n2 = .err 401 "Unauthorised" ∧
    (∀ t p, verifyRefreshClass e t n3 = some p →
      p.typ = some "refresh" ∧ t.secret = e.jwtRefreshSecret ∧ n3 < t.exp) := by
  refine ⟨verifyRefreshClass_signAccess e s r now n1,
    jwtVerify_signRefresh_accessSecret e s2 now2 n2 hsec,
    requireAuth_signRefresh e s2 now2 n2 hsec, ?_⟩
  intro t p hp
  have h := (verifyRefreshClass_eq_some e t n3 p).mp hp
  exact ⟨h.2.2.2 ▸ h.2.2.1, h.1, h.2.1⟩

/-- C2 witness: the amended statement evaluated on the default
environment, whose two secrets differ. -/
theorem C2_witness :
    verifyRefreshClass defaultEnv (signAccess defaultEnv "u1" .student 0) 10 = none ∧
    jwtVerify (signRefresh defaultEnv "u2" 5) defaultEnv.jwtAccessSecret 10 = none ∧
    requireAuth defaultEnv (some (signRefresh defaultEnv "u2" 5)) 10 =
      .err 401 "Unauthorised" :=
  have h := C2_cross_class_rejection defaultEnv "u1" "u2" .student 0 5 10 10 0
    (by decide)
  ⟨h.1, h.2.1, h.2.2.1⟩

/-! ### C3 -/

/-- C3: class-marker invariant.  Every issued access token's claim carries
a `role`; every issued refresh token's claim omits `role`; the two classes
differ on the explicit `typ` marker; an issued access token is never
accepted by the refresh-class check (the marker is absent), and — with the
two secrets configured distinct, as the design prescribes — an issued
refresh token is never accepted by the access-class middleware. -/
theorem C3_class_marker_invariant (e : Env) (s s2 : String) (r : Role)
    (now now2 n1 n2 : Nat)
    (hsec : e.jwtAccessSecret ≠ e.jwtRefreshSecret) :
    (signAccess e s r now).claims.role = some r ∧
    (signRefresh e s2 now2).claims.role = none ∧
    (signAccess e s r now).claims.typ ≠ (signRefresh e s2 now2).claims.typ ∧
    verifyRefreshClass e (signAccess e s r now) n1 = none ∧
    requireAuth e (some (signRefresh e s2 now2)) n2 = .err 401 "Unauthorised" := by
  exact ⟨rfl, rfl, by simp [signAccess, signRefresh, jwtSign],
    verifyRefreshClass_signAccess e s r now n1,
    requireAuth_signRefresh e s2 now2 n2 hsec⟩

/-- C3 witness: the invariant evaluated on the default environment. -/
theorem C3_witness :
    (signAccess defaultEnv "u1" .mentor 0).claims.role = some .mentor ∧
    (signRefresh defaultEnv "u2" 5).claims.role = none ∧
    verifyRefreshClass defaultEnv (signAccess defaultEnv "u1" .mentor 0) 10 = none ∧
    requireAuth defaultEnv (some (signRefresh defaultEnv "u2" 5)) 10 =
      .err 401 "Unauthorised" :=
  have h := C3_class_marker_invariant defaultEnv "u1" "u2" .mentor 0 5 10 10 (by decide)
  ⟨h.1, h.2.1, h.2.2.2.1, h.2.2.2.2⟩

/-! ### C4 -/

/-- C4 counterexample: the second role-guard variant does not reject a
request with no attached identity with a 401-equivalent authentication
failure — it answers 403 Forbidden, the same signal as an authorization
failure, refuting the claimed discrimination between the two failure
kinds. -/
theorem C4_counterexample :
    requireRoleV2 [Role.admin] none = .err 403 "Forbidden" := by decide

/-- C4 amended: the first role-guard variant discriminates as claimed —
missing identity (or an identity without a role claim) yields 401, an
identity with a role other than the required one yields 403, and a
matching role passes control on.  The second variant collapses both
failure kinds to 403 Forbidden: a missing identity, a missing role claim
and a role outside the allow-list are indistinguishable; a role in the
allow-list passes control on. -/
theorem C4_role_guard_variants (role r1 r2 r3 : Role) (s : String)
    (roles : List Role)
    (hne : r1 ≠ role) (hmem : r2 ∈ roles) (hnm : r3 ∉ roles) :
    requireRole role none = .err 401 "Unauthorised" ∧
    requireRole role (some { sub := s, role := none }) = .err 401 "Unauthorised" ∧
    requireRole role (some { sub := s, role := some r1 }) = .err 403 "Forbidden" ∧
    requireRole role (some { sub := s, role := some role }) = .next ∧
    requireRoleV2 roles none = .err 403 "Forbidden" ∧
    requireRoleV2 roles (some { sub := s, role := none }) = .err 403 "Forbidden" ∧
    requireRoleV2 roles (some { sub := s, role := some r2 }) = .next ∧
    requireRoleV2 roles (some { sub := s, role := some r3 }) = .err 403 "Forbidden" := by
  refine ⟨rfl, rfl, ?_, ?_, rfl, rfl, ?_, ?_⟩
  · simp [requireRole, hne]
  · simp [requireRole]
  · simp [requireRoleV2, hmem]
  · simp [requireRoleV2, hnm]

/-- C4 witness: both guard variants evaluated at concrete roles and a
concrete allow-list. -/
theorem C4_witness :
    requireRole Role.admin none = .err 401 "Unauthorised" ∧
    requireRole Role.admin (some { sub := "u1", role := some Role.student }) =
      .err 403 "Forbidden" ∧
    requireRoleV2 [Role.admin] none = .err 403 "Forbidden" ∧
    requireRoleV2 [Role.admin] (some { sub := "u1", role := some Role.admin }) =
      .next :=
  have h := C4_role_guard_variants Role.admin Role.student Role.admin Role.student
    "u1" [Role.admin] (by decide) (by decide) (by decide)
  ⟨h.1, h.2.2.1, h.2.2.2.2.1, h.2.2.2.2.2.2.1⟩

/-! ### C5 -/

/-- A word containing no space is returned whole by `splitOnSpace`. -/
theorem splitOnSpace_no_space (w : List Char) (h : ' ' ∉ w) :
    splitOnSpace w = [w] := by
  induction w with
  | nil => rfl
  | cons c rest ih =>
    have hc : ¬ (c = ' ') := by
      rintro rfl
      exact h (List.mem_cons_self _ _)
    have hr : ' ' ∉ rest := fun hm => h (List.mem_cons_of_mem _ hm)
    simp [splitOnSpace, ih hr, hc]

/-- Splitting `w1 ⧺ ' ' ⧺ w2` peels off `w1` when `w1` has no space. -/
theorem splitOnSpace_append (w1 w2 : List Char) (h : ' ' ∉ w1) :
    splitOnSpace (w1 ++ ' ' :: w2) = w1 :: splitOnSpace w2 := by
  induction w1 with
  | nil => simp [splitOnSpace]
  | cons c rest ih =>
    have hc : ¬ (c = ' ') := by
      rintro rfl
      exact h (List.mem_cons_self _ _)
    have hr : ' ' ∉ rest := fun hm => h (List.mem_cons_of_mem _ hm)
    simp [splitOnSpace, ih hr, hc]

/-- C5 counterexample: the second middleware variant's extraction is
case-sensitive.  The header `Bearer abc` yields the token, but the
claimed-equivalent `bearer abc` yields nothing, refuting that the scheme
prefix match is case-insensitive for every identity-middleware variant. -/
theorem C5_counterexample :
    extractTokenV2 "Bearer abc".toList = some "abc".toList ∧
    extractTokenV2 "bearer abc".toList = none := by decide

/-- C5 amended: the first middleware variant extracts the token from any
header `scheme ⧺ ' ' ⧺ token` whose scheme word is a letter-case variant
of `Bearer` (neither part containing a further space), as the claim
states.  The second variant instead requires the exact prefix
`Bearer ` — headers with any other casing of the scheme are rejected. -/
theorem C5_bearer_scheme (scheme tok h7 : List Char)
    (hs : ' ' ∉ scheme) (ht : ' ' ∉ tok)
    (hb : scheme.map Char.toLower = "bearer".toList)
    (hpre : h7.take 7 ≠ "Bearer ".toList) :
    getBearerToken (scheme ++ ' ' :: tok) = some tok ∧
    (∀ rest, extractTokenV2 ("Bearer ".toList ++ rest) = some rest) ∧
    extractTokenV2 h7 = none := by
  refine ⟨?_, ?_, ?_⟩
  · unfold getBearerToken
    rw [splitOnSpace_append scheme tok hs, splitOnSpace_no_space tok ht]
    simp [hb]
  · intro rest
    unfold extractTokenV2
    rw [show (7 : Nat) = ("Bearer ".toList).length from rfl, List.take_left,
      List.drop_left]
    simp
  · unfold extractTokenV2
    rw [if_neg hpre]

/-- C5 witness: a mixed-case scheme accepted by the first variant, and a
lower-case scheme rejected by the second. -/
theorem C5_witness :
    getBearerToken ("bEaReR".toList ++ ' ' :: "abc".toList) = some "abc".toList ∧
    extractTokenV2 ("Bearer ".toList ++ "abc".toList) = some "abc".toList ∧
    extractTokenV2 "bearer abc".toList = none :=
  have h := C5_bearer_scheme "bEaReR".toList "abc".toList "bearer abc".toList
    (by decide) (by decide) (by decide) (by decide)
  ⟨h.1, h.2.1 "abc".toList, h.2.2⟩

/-! ### Login helper lemmas -/

/-- Successful login: found user, non-empty stored hash, verifier accepts.
The store gets the bookkeeping patch, the trace records the update before
token issuance, and both token classes are issued for the user's id. -/
theorem login_success (pv : String → String → Bool) (e : Env) (db : List UserRec)
    (em pw : String) (now : Nat) (u : UserRec)
    (h1 : getByEmail db (normalizeEmail em) = some u)
    (h2 : u.passwordHash ≠ "")
    (h3 : pv u.passwordHash pw = true) :
    login pv e db em pw now =
      { result := .ok (signAccess e u.id u.role now) (signRefresh e u.id now)
        db := (updateById db u.id
          { lastLoginAt := some now, failedLoginCount := some 0 }).1
        trace := [.bookkeepingUpdate u.id, .tokensIssued] } := by
  simp only [login, h1]
  simp only [if_neg h2, h3, if_true]

/-- Failed login, wrong password: the outcome is the generic error, the
store is untouched and no event is emitted. -/
theorem login_wrong_password (pv : String → String → Bool) (e : Env)
    (db : List UserRec) (em pw : String) (now : Nat) (u : UserRec)
    (h1 : getByEmail db (normalizeEmail em) = some u)
    (h2 : pv u.passwordHash pw = false) :
    login pv e db em pw now =
      { result := .err 401 "Invalid credentials", db := db, trace := [] } := by
  simp only [login, h1]
  by_cases hph : u.passwordHash = ""
  · simp only [if_pos hph]
  · simp only [if_neg hph, h2]
    rfl

/-- Failed login, unknown email: the same generic error, untouched store,
empty trace. -/
theorem login_unknown_email (pv : String → String → Bool) (e : Env)
    (db : List UserRec) (em pw : String) (now : Nat)
    (h1 : getByEmail db (normalizeEmail em) = none) :
    login pv e db em pw now =
      { result := .err 401 "Invalid credentials", db := db, trace := [] } := by
  simp only [login, h1]

/-! ### C6 -/

/-- C6: login failure indistinguishability.  A login attempt whose
normalised email matches no account and one that matches an account but
fails password verification produce byte-identical outward results — the
single generic `401 Invalid credentials` signal — so a caller cannot tell
the two cases apart. -/
theorem C6_login_failure_indistinguishable (pv : String → String → Bool)
    (e : Env) (db : List UserRec) (e1 e2 pw1 pw2 : String) (now1 now2 : Nat)
    (u : UserRec)
    (h1 : getByEmail db (normalizeEmail e1) = none)
    (h2 : getByEmail db (normalizeEmail e2) = some u)
    (h3 : pv u.passwordHash pw2 = false) :
    login pv e db e1 pw1 now1 =
      { result := .err 401 "Invalid credentials", db := db, trace := [] } ∧
    login pv e db e2 pw2 now2 =
      { result := .err 401 "Invalid credentials", db := db, trace := [] } ∧
    (login pv e db e1 pw1 now1).result = (login pv e db e2 pw2 now2).result := by
  have ha := login_unknown_email pv e db e1 pw1 now1 h1
  have hb := login_wrong_password pv e db e2 pw2 now2 u h2 h3
  exact ⟨ha, hb, by rw [ha, hb]⟩

/-- C6 witness: unknown email versus wrong password for `aliceU`. -/
theorem C6_witness :
    login pvModel defaultEnv [aliceU] "nobody@example.com" "pw1" 100 =
      { result := .err 401 "Invalid credentials", db := [aliceU], trace := [] } ∧
    login pvModel defaultEnv [aliceU] "Alice@Example.com " "wrong" 100 =
      { result := .err 401 "Invalid credentials", db := [aliceU], trace := [] } :=
  have h := C6_login_failure_indistinguishable pvModel defaultEnv [aliceU]
    "nobody@example.com" "Alice@Example.com " "pw1" "wrong" 100 100 aliceU
    (by decide) (by decide) (by decide)
  ⟨h.1, h.2.1⟩

/-- Login with a found user whose stored hash is missing (empty) fails
with the same generic error and touches nothing. -/
theorem login_empty_hash (pv : String → String → Bool) (e : Env)
    (db : List UserRec) (em pw : String) (now : Nat) (u : UserRec)
    (h1 : getByEmail db (normalizeEmail em) = some u)
    (h2 : u.passwordHash = "") :
    login pv e db em pw now =
      { result := .err 401 "Invalid credentials", db := db, trace := [] } := by
  simp only [login, h1]
  simp only [if_pos h2]

/-- After the bookkeeping update, every record carrying the updated id has
`failedLoginCount = 0` and `lastLoginAt` stamped. -/
theorem updateById_bookkeeping (db : List UserRec) (id : String) (now : Nat) :
    ∀ v ∈ (updateById db id
      { lastLoginAt := some now, failedLoginCount := some 0 }).1,
      v.id = id → v.failedLoginCount = 0 ∧ v.lastLoginAt = some now := by
  intro v hv hid
  unfold updateById at hv
  cases hg : getById db id with
  | none =>
    rw [hg] at hv
    unfold getById at hg
    rw [List.find?_eq_none] at hg
    exact absurd (by simp [hid]) (hg v hv)
  | some w =>
    rw [hg] at hv
    simp only [List.mem_map] at hv
    obtain ⟨x, hx, rfl⟩ := hv
    by_cases hxid : x.id = id
    · simp [hxid, applyPatch]
    · rw [if_neg hxid] at hid ⊢
      exact absurd hid hxid

/-! ### C7 -/

/-- C7 counterexample: a failed login attempt mutates nothing — the store
is returned unchanged (the stored `failedLoginCount` stays 3 and
`lastLoginAt` stays absent) and no bookkeeping event is emitted, refuting
that the bookkeeping fields are "mutated on each login attempt
outcome". -/
theorem C7_counterexample :
    login pvModel defaultEnv [aliceU] "alice@example.com" "wrong" 100 =
      { result := .err 401 "Invalid credentials", db := [aliceU], trace := [] } ∧
    aliceU.failedLoginCount = 3 ∧ aliceU.lastLoginAt = none := by decide

/-- C7 amended: the bookkeeping fields are mutated only on a *successful*
login: `failedLoginCount` is reset to 0 and `lastLoginAt` stamped with the
current time, and the store update precedes token issuance in the event
trace.  A failed attempt (here: wrong password) leaves the store unchanged
and emits no event — `failedLoginCount` is never incremented. -/
theorem C7_login_bookkeeping (pv : String → String → Bool) (e : Env)
    (db db2 : List UserRec) (em em2 pw pw2 : String) (now now2 : Nat)
    (u u2 : UserRec)
    (h1 : getByEmail db (normalizeEmail em) = some u)
    (h2 : u.passwordHash ≠ "")
    (h3 : pv u.passwordHash pw = true)
    (h4 : getByEmail db2 (normalizeEmail em2) = some u2)
    (h5 : pv u2.passwordHash pw2 = false) :
    (∀ v ∈ (login pv e db em pw now).db, v.id = u.id →
      v.failedLoginCount = 0 ∧ v.lastLoginAt = some now) ∧
    (login pv e db em pw now).trace =
      [.bookkeepingUpdate u.id, .tokensIssued] ∧
    (login pv e db em pw now).result =
      .ok (signAccess e u.id u.role now) (signRefresh e u.id now) ∧
    login pv e db2 em2 pw2 now2 =
      { result := .err 401 "Invalid credentials", db := db2, trace := [] } := by
  rw [login_success pv e db em pw now u h1 h2 h3]
  exact ⟨updateById_bookkeeping db u.id now, rfl, rfl,
    login_wrong_password pv e db2 em2 pw2 now2 u2 h4 h5⟩

/-- C7 witness: a successful and a failed login for `aliceU`. -/
theorem C7_witness :
    (login pvModel defaultEnv [aliceU] "alice@example.com" "pw1" 100).trace =
      [.bookkeepingUpdate "id1", .tokensIssued] ∧
    (login pvModel defaultEnv [aliceU] "alice@example.com" "pw1" 100).result =
      .ok (signAccess defaultEnv "id1" .student 100)
        (signRefresh defaultEnv "id1" 100) ∧
    login pvModel defaultEnv [aliceU] "alice@example.com" "wrong" 100 =
      { result := .err 401 "Invalid credentials", db := [aliceU], trace := [] } :=
  have h := C7_login_bookkeeping pvModel defaultEnv [aliceU] [aliceU]
    "alice@example.com" "alice@example.com" "pw1" "wrong" 100 100 aliceU aliceU
    (by decide) (by decide) (by decide) (by decide) (by decide)
  ⟨h.2.1, h.2.2.1, h.2.2.2⟩

/-! ### C8 -/

/-- Rewrite the activation flag of every stored record; statement
apparatus for showing the auth core never reads `isActive`. -/
def setActiveAll (db : List UserRec) (b : Bool) : List UserRec :=
  db.map (fun u => { u with isActive := b })

/-- Email lookup is oblivious to the activation flag. -/
theorem getByEmail_setActiveAll (db : List UserRec) (b : Bool) (em : String) :
    getByEmail (setActiveAll db b) em =
      (getByEmail db em).map (fun u => { u with isActive := b }) := by
  unfold getByEmail setActiveAll
  induction db with
  | nil => rfl
  | cons a l ih =>
    by_cases ha : a.email = em
    · simp [List.find?_cons, ha]
    · simp only [List.map_cons, List.find?_cons]
      simp [ha, ih]

/-- The outward result and the event trace of a login attempt do not
depend on the activation flags stored in the database. -/
theorem login_ignores_isActive (pv : String → String → Bool) (e : Env)
    (db : List UserRec) (em pw : String) (now : Nat) (b : Bool) :
    (login pv e (setActiveAll db b) em pw now).result =
      (login pv e db em pw now).result ∧
    (login pv e (setActiveAll db b) em pw now).trace =
      (login pv e db em pw now).trace := by
  cases hfind : getByEmail db (normalizeEmail em) with
  | none =>
    have hf2 : getByEmail (setActiveAll db b) (normalizeEmail em) = none := by
      rw [getByEmail_setActiveAll, hfind]; rfl
    rw [login_unknown_email pv e db em pw now hfind,
      login_unknown_email pv e (setActiveAll db b) em pw now hf2]
    exact ⟨rfl, rfl⟩
  | some u =>
    have hf2 : getByEmail (setActiveAll db b) (normalizeEmail em) =
        some { u with isActive := b } := by
      rw [getByEmail_setActiveAll, hfind]; rfl
    by_cases hph : u.passwordHash = ""
    · rw [login_empty_hash pv e db em pw now u hfind hph,
        login_empty_hash pv e (setActiveAll db b) em pw now _ hf2 hph]
      exact ⟨rfl, rfl⟩
    · cases hpv : pv u.passwordHash pw with
      | false =>
        rw [login_wrong_password pv e db em pw now u hfind hpv,
          login_wrong_password pv e (setActiveAll db b) em pw now _ hf2 hpv]
        exact ⟨rfl, rfl⟩
      | true =>
        rw [login_success pv e db em pw now u hfind hph hpv,
          login_success pv e (setActiveAll db b) em pw now _ hf2 hph hpv]
        exact ⟨rfl, rfl⟩

/-- C8: deactivation is not enforced by the auth core.  Login with correct
credentials for an account with `isActive = false` still succeeds and
issues both token classes; the issued access token still passes the
identity middleware; and rewriting the activation flag of every stored
record changes neither the outward result nor the event trace of any login
attempt — no step of the login or verification path reads `isActive`. -/
theorem C8_isActive_not_enforced (pv : String → String → Bool) (e : Env)
    (db : List UserRec) (em pw : String) (now n : Nat) (u : UserRec)
    (h1 : getByEmail db (normalizeEmail em) = some u)
    (h2 : u.passwordHash ≠ "")
    (h3 : pv u.passwordHash pw = true)
    (_h4 : u.isActive = false)
    (h5 : n < now + e.accessTtl) :
    (login pv e db em pw now).result =
      .ok (signAccess e u.id u.role now) (signRefresh e u.id now) ∧
    requireAuth e (some (signAccess e u.id u.role now)) n =
      .ok { sub := u.id, role := some u.role } ∧
    (∀ b, (login pv e (setActiveAll db b) em pw now).result =
        (login pv e db em pw now).result ∧
      (login pv e (setActiveAll db b) em pw now).trace =
        (login pv e db em pw now).trace) := by
  refine ⟨?_, ?_, fun b => login_ignores_isActive pv e db em pw now b⟩
  · rw [login_success pv e db em pw now u h1 h2 h3]
  · simp only [requireAuth, jwtVerify_signAccess e u.id u.role now n h5]

/-- C8 witness: `aliceU` is deactivated, yet login succeeds and the access
token is accepted by the middleware. -/
theorem C8_witness :
    aliceU.isActive = false ∧
    (login pvModel defaultEnv [aliceU] "alice@example.com" "pw1" 100).result =
      .ok (signAccess defaultEnv "id1" .student 100)
        (signRefresh defaultEnv "id1" 100) ∧
    requireAuth defaultEnv (some (signAccess defaultEnv "id1" .student 100)) 110 =
      .ok { sub := "id1", role := some .student } :=
  have h := C8_isActive_not_enforced pvModel defaultEnv [aliceU]
    "alice@example.com" "pw1" 100 110 aliceU
    (by decide) (by decide) (by decide) (by decide) (by decide)
  ⟨by decide, h.1, h.2.1⟩

/-! ### C9 -/

/-- C9: refresh re-reads the role.  For a presented token that passes the
refresh-secret signature/expiry check and carries the `refresh` marker:
when its subject resolves to a stored account, the endpoint answers with a
fresh access token whose role claim is the role *currently stored* in that
account record — whatever role claim the presented token itself carried is
ignored; when the subject resolves to no account, the endpoint fails with
the same opaque `401 Invalid token` signal as every other refresh
failure. -/
theorem C9_refresh_rereads_role (e : Env) (db : List UserRec) (t : Token)
    (now : Nat) (p : TokenClaims)
    (h1 : jwtVerify t e.jwtRefreshSecret now = some p)
    (h2 : p.typ = some "refresh") :
    (∀ u, getById db p.sub = some u →
      refresh e db (some t) now = .ok (signAccess e u.id u.role now) ∧
      (signAccess e u.id u.role now).claims.role = some u.role) ∧
    (getById db p.sub = none →
      refresh e db (some t) now = .err 401 "Invalid token") := by
  constructor
  · intro u hu
    refine ⟨?_, rfl⟩
    simp only [refresh, h1, if_pos h2, hu]
  · intro hu
    simp only [refresh, h1, if_pos h2, hu]

/-- C9 witness: a refresh token that adversarially carries an `admin` role
claim still yields an access token with `aliceU`'s stored `student` role,
and the same token against an empty store yields the opaque failure. -/
theorem C9_witness :
    refresh defaultEnv [aliceU] (some bogusRefreshTok) 10 =
      .ok (signAccess defaultEnv "id1" .student 10) ∧
    bogusRefreshTok.claims.role = some .admin ∧
    refresh defaultEnv [] (some bogusRefreshTok) 10 = .err 401 "Invalid token" :=
  have ha := C9_refresh_rereads_role defaultEnv [aliceU] bogusRefreshTok 10
    bogusRefreshTok.claims (by decide) (by decide)
  have hb := C9_refresh_rereads_role defaultEnv [] bogusRefreshTok 10
    bogusRefreshTok.claims (by decide) (by decide)
  ⟨(ha.1 aliceU (by decide)).1, by decide, hb.2 (by decide)⟩

/-! ### C10 -/

/-- Pointwise lifting of a reflexive-on-updates relation to a mapped
store. -/
theorem forall₂_map_self {α : Type} (R : α → α → Prop) (f : α → α)
    (l : List α) (h : ∀ a, R a (f a)) : List.Forall₂ R l (l.map f) := by
  induction l with
  | nil => exact List.Forall₂.nil
  | cons a t ih => exact List.Forall₂.cons (h a) ih

/-- Patching through `updateById` with a patch that carries neither
`email` nor `passwordHash` preserves both fields of every record. -/
theorem updateById_preservesCreds (db : List UserRec) (id : String)
    (p : UserPatch) (he : p.email = none) (hp : p.passwordHash = none) :
    List.Forall₂ preservesCreds db (updateById db id p).1 := by
  unfold updateById
  cases hg : getById db id with
  | none => exact List.forall₂_same.mpr (fun u _ => ⟨rfl, rfl⟩)
  | some w =>
    apply forall₂_map_self
    intro a
    by_cases ha : a.id = id
    · rw [if_pos ha]
      unfold preservesCreds applyPatch
      rw [he, hp]
      exact ⟨rfl, rfl⟩
    · rw [if_neg ha]
      exact ⟨rfl, rfl⟩

/-- Every patch produced by the self-update schema (first variant) omits
`email` and `passwordHash`. -/
theorem updateMeValidate_frame (body : List (String × JVal)) (p : UserPatch)
    (h : updateMeValidate body = some p) :
    p.email = none ∧ p.passwordHash = none := by
  unfold updateMeValidate at h
  split at h
  · split at h
    · cases h
      exact ⟨rfl, rfl⟩
    · cases h
  · cases h

/-- Every patch produced by the self-update schema (second variant) omits
`email` and `passwordHash`. -/
theorem updateMeValidateV2_frame (body : List (String × JVal)) (p : UserPatch)
    (h : updateMeValidateV2 body = some p) :
    p.email = none ∧ p.passwordHash = none := by
  unfold updateMeValidateV2 at h
  split at h
  · split at h
    · cases h
      exact ⟨rfl, rfl⟩
    · cases h
  · cases h

/-- Every patch produced by the admin-update schema omits `email` and
`passwordHash`. -/
theorem adminUpdateValidate_frame (body : List (String × JVal)) (p : UserPatch)
    (h : adminUpdateValidate body = some p) :
    p.email = none ∧ p.passwordHash = none := by
  unfold adminUpdateValidate at h
  split at h
  · split at h
    · cases h
      exact ⟨rfl, rfl⟩
    · cases h
  · cases h

/-- The store is unchanged, hence trivially credential-preserving. -/
theorem forall₂_preservesCreds_refl (db : List UserRec) :
    List.Forall₂ preservesCreds db db :=
  List.forall₂_same.mpr (fun _ _ => ⟨rfl, rfl⟩)

/-- C10: `email` and `passwordHash` are immutable through every public
update endpoint.  Whatever the request body contains — including `email`
or `passwordHash` keys, which the schemas strip as unknown — after
`updateMe` (either variant) or `adminUpdate` every stored record keeps its
original `email` and `passwordHash`. -/
theorem C10_email_passwordHash_immutable (db : List UserRec)
    (ru : Option ReqUser) (sub targetId : String)
    (body : List (String × JVal)) :
    List.Forall₂ preservesCreds db (updateMe db ru body).1 ∧
    List.Forall₂ preservesCreds db (updateMeV2 db sub body).1 ∧
    List.Forall₂ preservesCreds db (adminUpdate db targetId body).1 := by
  refine ⟨?_, ?_, ?_⟩
  · unfold updateMe
    split
    · exact forall₂_preservesCreds_refl db
    · next ru2 =>
      split
      · exact forall₂_preservesCreds_refl db
      · split
        · exact forall₂_preservesCreds_refl db
        · next p hv =>
          have hf := updateMeValidate_frame body p hv
          exact updateById_preservesCreds db ru2.sub p hf.1 hf.2
  · unfold updateMeV2
    split
    · exact forall₂_preservesCreds_refl db
    · next p hv =>
      have hf := updateMeValidateV2_frame body p hv
      exact updateById_preservesCreds db sub p hf.1 hf.2
  · unfold adminUpdate
    split
    · exact forall₂_preservesCreds_refl db
    · next p hv =>
      have hf := adminUpdateValidate_frame body p hv
      split
      · exact forall₂_preservesCreds_refl db
      · rename_i db2 u heq
        have hpres := updateById_preservesCreds db targetId p hf.1 hf.2
        rw [heq] at hpres
        exact hpres

end CodeCraftHub
